import Mathlib

/-!
Verification development for `src/analyses/manuscript_fig_4.py`.

The script queries a database of recorded neuron pairs, classifies cells into
five classes per species, estimates same-class connectivity, and writes every
plotted numeric series as a labeled row of `manuscript_fig_4.csv`.

The CSV-writing helper `write_csv` (source lines 21-31) and the row-emission
order and labels (source lines 126-210) are embedded directly from the source.
The functions the script calls from elsewhere in the repository
(`query_pairs`, `classify_cells`, `measure_connectivity`, `CellClass`) are not
under `src/` and are modelled from the spec; the confidence-interval method and
`distance_plot` are deliberately unspecified by the spec, so they enter the
model as function parameters together with their documented contracts.
NumPy's `arange` and `histogram` are embedded with their documented semantics
over exact rationals (machine floats are not modelled).
-/

set_option autoImplicit false

namespace Fig4

/-- Species of the experiment a pair was recorded in; the script queries
mouse and human. -/
inductive Species where
  | mouse
  | human
deriving DecidableEq

/-- Cell attributes read by the class definitions used in the script:
target layer, pyramidal flag, cre line.  Each may be absent on a cell. -/
structure Cell where
  target_layer : Option String
  pyramidal : Option Bool
  cre_type : Option String
deriving DecidableEq

/-- Modelled from the spec: `CellClass` (repository code not under src/) is a
named predicate over cell attributes whose identity is its filter parameters;
a `none` field is an unconstrained parameter. -/
structure CellClass where
  target_layer : Option String
  pyramidal : Option Bool
  cre_type : Option String
deriving DecidableEq

/-- A supplied class parameter matches when the cell attribute equals it; an
unsupplied (`none`) parameter matches every cell. -/
def attrMatch {α : Type} [DecidableEq α] (param : Option α) (attr : Option α) : Bool :=
  match param with
  | none => true
  | some v => decide (attr = some v)

/-- Modelled from the spec: a `CellClass` matches a cell when every supplied
filter parameter equals the corresponding cell attribute. -/
def CellClass.matches (k : CellClass) (c : Cell) : Bool :=
  attrMatch k.target_layer c.target_layer &&
  attrMatch k.pyramidal c.pyramidal &&
  attrMatch k.cre_type c.cre_type

/-- A recorded cell pair: a directed attempt to detect a synaptic connection.
`distance` is the intersomatic distance and may be absent; `connected` records
whether a connection was detected. -/
structure Pair where
  species : Species
  acsf : String
  age : ℚ
  pre : Cell
  post : Cell
  distance : Option ℚ
  connected : Bool
deriving DecidableEq

/-- An intersomatic distance bound `(lo, hi)` as the script passes it:
`(None, 100e-6)` or `(None, float(inf))`.  `hi = none` models the infinite
upper bound `float(inf)`, below which every reported distance lies. -/
structure DistBound where
  lo : Option ℚ
  hi : Option ℚ
deriving DecidableEq

/-- Query filter criteria of `query_pairs`; `none` means unconstrained. -/
structure Filters where
  species : Option Species
  acsf : Option String
  age_min : Option ℚ
  age_max : Option ℚ
  distance : Option DistBound
deriving DecidableEq

/-- An unsupplied criterion matches every value. -/
def critMatch {α : Type} [DecidableEq α] (crit : Option α) (x : α) : Bool :=
  match crit with
  | none => true
  | some v => decide (x = v)

/-- Modelled from the spec: the distance criterion of `query_pairs`.  Pairs
lacking a reported distance are excluded whenever a distance filter is
supplied; otherwise the reported distance must be at least the lower bound and
strictly below the upper bound (spec section 8: a query with
`distance=(None, 100e-6)` excludes every pair whose reported distance is
`None` or `>= 100e-6`). -/
def distMatch (b : Option DistBound) (d : Option ℚ) : Bool :=
  match b with
  | none => true
  | some bd =>
    match d with
    | none => false
    | some dv =>
      (match bd.lo with
       | none => true
       | some l => decide (l ≤ dv)) &&
      (match bd.hi with
       | none => true
       | some h => decide (dv < h))

/-- Whether a pair satisfies every supplied filter criterion. -/
def pair_matches (fl : Filters) (p : Pair) : Bool :=
  critMatch fl.species p.species &&
  critMatch fl.acsf p.acsf &&
  (match fl.age_min with
   | none => true
   | some m => decide (m ≤ p.age)) &&
  (match fl.age_max with
   | none => true
   | some m => decide (p.age ≤ m)) &&
  distMatch fl.distance p.distance

/-- Modelled from the spec: `query_pairs` (repository code not under src/)
returns the pairs of the store satisfying every supplied constraint, with no
side effects on the store. -/
def query_pairs (fl : Filters) (db : List Pair) : List Pair :=
  db.filter (pair_matches fl)

/-- Modelled from the spec: `classify_cells` (repository code not under src/)
assigns a cell its first matching class, or none (first match wins). -/
def classify_cells (classes : List CellClass) (c : Cell) : Option CellClass :=
  classes.find? (fun k => k.matches c)

/-- A connection-probability confidence-interval estimator: from the connected
and probed counts, the (lower, upper) bounds.  Spec section 9 leaves the CI
method unspecified and says to treat it as a pluggable external dependency. -/
def CIFn : Type := ℕ → ℕ → ℚ × ℚ

/-- Modelled from the spec: the documented contract of the CI estimator — a
point estimate with two-sided bounds, all probabilities in [0, 1]. -/
def ciValid (ci : CIFn) : Prop :=
  ∀ nc np : ℕ, nc ≤ np →
    0 ≤ (ci nc np).1 ∧ (ci nc np).1 ≤ (nc : ℚ) / (np : ℚ) ∧
    (nc : ℚ) / (np : ℚ) ≤ (ci nc np).2 ∧ (ci nc np).2 ≤ 1

/-- The pairs probed between classes `k1` and `k2`: pre cell classified to
`k1` and post cell to `k2`. -/
def probed_pairs_of (classes : List CellClass) (pairs : List Pair)
    (k1 k2 : CellClass) : List Pair :=
  pairs.filter (fun p =>
    decide (classify_cells classes p.pre = some k1) &&
    decide (classify_cells classes p.post = some k2))

/-- The probed pairs between `k1` and `k2` on which a connection was
detected. -/
def connected_pairs_of (classes : List CellClass) (pairs : List Pair)
    (k1 k2 : CellClass) : List Pair :=
  (probed_pairs_of classes pairs k1 k2).filter (fun p => p.connected)

/-- One entry of the `measure_connectivity` result dict: counts, the
probability 3-tuple (point, lower, upper), and the underlying pair lists. -/
structure ConnectivityResult where
  n_probed : ℕ
  n_connected : ℕ
  connection_probability : ℚ × ℚ × ℚ
  probed_pairs : List Pair
  connected_pairs : List Pair
deriving DecidableEq

/-- Modelled from the spec: the `measure_connectivity` entry at class-pair key
`(k1, k2)` — probed count, connected count, and the probability tuple whose
point estimate is the connected fraction (spec glossary) and whose bounds come
from the external CI estimator; zero probed pairs give the degenerate point
0 (rational division by zero). -/
def measure_connectivity (ci : CIFn) (classes : List CellClass)
    (pairs : List Pair) (k1 k2 : CellClass) : ConnectivityResult :=
  ⟨(probed_pairs_of classes pairs k1 k2).length,
   (connected_pairs_of classes pairs k1 k2).length,
   (((connected_pairs_of classes pairs k1 k2).length : ℚ) /
      ((probed_pairs_of classes pairs k1 k2).length : ℚ),
    (ci (connected_pairs_of classes pairs k1 k2).length
        (probed_pairs_of classes pairs k1 k2).length).1,
    (ci (connected_pairs_of classes pairs k1 k2).length
        (probed_pairs_of classes pairs k1 k2).length).2),
   probed_pairs_of classes pairs k1 k2,
   connected_pairs_of classes pairs k1 k2⟩

/-- Ceiling of a rational as a natural number, used for the np.arange element
count; nonpositive arguments give 0. -/
def rceil (q : ℚ) : ℕ :=
  (q.num.toNat + q.den - 1) / q.den

/-- Semantics of `np.arange start stop step` over exact rationals: the values
`start + k * step` for `k` below `ceil((stop - start) / step)`. -/
def arange (start stop step : ℚ) : List ℚ :=
  (List.range (rceil ((stop - start) / step))).map (fun k => start + (k : ℚ) * step)

/-- Semantics of `np.histogram data edges` for given monotone bin edges: bin
`i` counts the values in `[edges i, edges (i+1))`, the final bin being
right-closed; the result is (counts, edges). -/
def histogram (data : List ℚ) (edges : List ℚ) : List ℕ × List ℚ :=
  let nbins := edges.length - 1
  ((List.range nbins).map (fun i =>
    (data.filter (fun x =>
      decide (edges.getD i 0 ≤ x) &&
      (decide (x < edges.getD (i + 1) 0) ||
        (decide (i = nbins - 1) && decide (x ≤ edges.getD (i + 1) 0))))).length),
   edges)

/-- The external `neuroanalysis` Trace type: a time series.  Its content is
never read by `write_csv`, which only branches on it. -/
structure Trace where
  time_values : List ℚ
  data : List ℚ
deriving DecidableEq

/-- The `data` argument of `write_csv`: a `Trace` or a plain sequence whose
elements have already been rendered to strings (as `map(str, ...)` does in the
source). -/
inductive CsvData where
  | trace (t : Trace)
  | seq (vals : List String)

/-- Comma-joined column list, exactly python `','.join`. -/
def commaJoin : List String → String
  | [] => ""
  | [c] => c
  | c :: c2 :: cs => c ++ ("," ++ commaJoin (c2 :: cs))

/-- One CSV line as `write_csv` builds it (source lines 28-29): the
description wrapped in double quotes prepended to the values, all joined with
commas. -/
def csvLine (description : String) (vals : List String) : String :=
  commaJoin (("\"" ++ description ++ "\"") :: vals)

/-- File bytes of a list of emitted lines: each line followed by a newline
(source lines 30-31). -/
def file_append (lines : List String) : String :=
  String.join (lines.map (fun l => l ++ "\n"))

/-- The `write_csv` helper (source lines 21-31), totalized with fuel: the
lines appended to the file, or `none` when the recursion exceeds the fuel.
The Trace branch recurses on the SAME data (source lines 25-26) with the
description extended by "distance(um)" and by a space and the units, the
recursive calls taking the default units argument. -/
def write_csv : ℕ → CsvData → String → String → Option (List String)
  | 0, _, _, _ => none
  | fuel + 1, CsvData.trace t, description, units =>
    match write_csv fuel (CsvData.trace t) (description ++ "distance(um)")
        "connection probability %" with
    | none => none
    | some l1 =>
      match write_csv fuel (CsvData.trace t) (description ++ " " ++ units)
          "connection probability %" with
      | none => none
      | some l2 => some (l1 ++ l2)
  | _ + 1, CsvData.seq vals, description, _ => some [csvLine description vals]

/-- The five mouse cell classes with their short names (source lines 93-99;
colors are plotting-only and not modelled). -/
def mouse_classes : List (CellClass × String) :=
  [(⟨some "2/3", some true, none⟩, "L2/3"),
   (⟨none, none, some "rorb"⟩, "Rorb"),
   (⟨none, none, some "tlx3"⟩, "Tlx3"),
   (⟨none, none, some "sim1"⟩, "Sim1"),
   (⟨none, none, some "ntsr1"⟩, "Ntsr1")]

/-- The five human cell classes with their short names (source lines
101-107). -/
def human_classes : List (CellClass × String) :=
  [(⟨some "2", some true, none⟩, "L2"),
   (⟨some "3", some true, none⟩, "L3"),
   (⟨some "4", some true, none⟩, "L4"),
   (⟨some "5", some true, none⟩, "L5"),
   (⟨some "6", some true, none⟩, "L6")]

/-- 100e-6 (100 µm) in exact arithmetic. -/
def dist100um : ℚ := 1 / 10000

/-- The mouse near-range query filters (source line 114): ACSF "2mM Ca & Mg",
age (40, None), species mouse, distance (None, 100e-6). -/
def mouse_near_filters : Filters :=
  ⟨some Species.mouse, some "2mM Ca & Mg", some 40, none, some ⟨none, some dist100um⟩⟩

/-- The human near-range query filters (source line 119): species human,
distance (None, 100e-6). -/
def human_near_filters : Filters :=
  ⟨some Species.human, none, none, none, some ⟨none, some dist100um⟩⟩

/-- The mouse all-distance query filters (source line 174): ACSF, age and
species as before, distance (None, float(inf)). -/
def mouse_all_filters : Filters :=
  ⟨some Species.mouse, some "2mM Ca & Mg", some 40, none, some ⟨none, none⟩⟩

/-- The human all-distance query filters (source line 179). -/
def human_all_filters : Filters :=
  ⟨some Species.human, none, none, none, some ⟨none, none⟩⟩

/-- Output of `distance_plot` as the source destructures it
(line 199: `plot, xvals, prop, upper, lower = distance_plot(...)`); spec
section 4.4 describes it as a smoothed probability-vs-distance curve with
confidence bounds. -/
structure DistCurve where
  xvals : List ℚ
  prop : List ℚ
  upper : List ℚ
  lower : List ℚ

/-- The external `distance_plot` estimator, abstracted as a function from the
per-pair connected flags and distances to the curve (spec section 4.4 treats
its smoothing method as an external dependency). -/
def DistPlotFn : Type := List Bool → List (Option ℚ) → DistCurve

/-- Rendering of a rational for the CSV, standing for python `str(...)`.
Exact decimal float formatting is not modelled; a fixed rendering serves the
claims, none of which depend on the digits. -/
def ratStr (q : ℚ) : String :=
  toString q.num ++ "/" ++ toString q.den

/-- The six near-range `write_csv` rows for one species (source lines
157-167), with the per-class results of the loop over classes (lines
140-155): class names, connected counts, probed counts, probability point
estimates, lower CI, upper CI. -/
def conn_rows (ci : CIFn) (classes : List (CellClass × String))
    (pairs : List Pair) (fig_letter : String) : List (String × List String) :=
  [("Figure 4" ++ fig_letter ++ " cell classes",
    classes.map (fun k => k.2)),
   ("Figure 4" ++ fig_letter ++ " n connected pairs < 100um",
    classes.map (fun k =>
      toString (measure_connectivity ci (classes.map Prod.fst) pairs k.1 k.1).n_connected)),
   ("Figure 4" ++ fig_letter ++ " n probed pairs < 100um",
    classes.map (fun k =>
      toString (measure_connectivity ci (classes.map Prod.fst) pairs k.1 k.1).n_probed)),
   ("Figure 4" ++ fig_letter ++ " connection probability < 100um",
    classes.map (fun k =>
      ratStr (measure_connectivity ci (classes.map Prod.fst) pairs k.1 k.1).connection_probability.1)),
   ("Figure 4" ++ fig_letter ++ " connection probability < 100um lower 95% confidence interval",
    classes.map (fun k =>
      ratStr (measure_connectivity ci (classes.map Prod.fst) pairs k.1 k.1).connection_probability.2.1)),
   ("Figure 4" ++ fig_letter ++ " connection probability < 100um upper 95% confidence interval",
    classes.map (fun k =>
      ratStr (measure_connectivity ci (classes.map Prod.fst) pairs k.1 k.1).connection_probability.2.2))]

/-- The distances of the probed pairs of a class entry
(source line 196: `[p.distance for p in probed_pairs]`). -/
def probed_distance_of (r : ConnectivityResult) : List (Option ℚ) :=
  r.probed_pairs.map Pair.distance

/-- The per-pair connected flags (source line 197:
`[(p in connected_pairs) for p in probed_pairs]`). -/
def connections_of (r : ConnectivityResult) : List Bool :=
  r.probed_pairs.map (fun p => decide (p ∈ r.connected_pairs))

/-- The histogram bins of the distance panels
(source line 201: `np.arange(0, 180e-6, 20e-6)`). -/
def fig4_bins : List ℚ :=
  arange 0 (9 / 50000) (1 / 50000)

/-- The six all-distance `write_csv` rows for one cell class (source lines
189-210).  The source writes `hist[1]` (the bin edges) under the
"histogram values" description and `hist[0]` (the counts) under
"histogram bin edges", and gives the lower-CI row the same
"distance plot x vals" description as the x-values row (lines 207 and 210).
`reduceOption` extracts the reported distances for the histogram; every pair
returned by a query with a distance filter carries one. -/
def dist_class_rows (dp : DistPlotFn) (ci : CIFn) (classes : List CellClass)
    (pairs : List Pair) (fig_letter : String) (k : CellClass)
    (class_name : String) : List (String × List String) :=
  [("Figure 4" ++ fig_letter ++ ", " ++ class_name ++ " histogram values",
    (histogram (probed_distance_of (measure_connectivity ci classes pairs k k)).reduceOption
      fig4_bins).2.map ratStr),
   ("Figure 4" ++ fig_letter ++ ", " ++ class_name ++ " histogram bin edges",
    (histogram (probed_distance_of (measure_connectivity ci classes pairs k k)).reduceOption
      fig4_bins).1.map (fun n => toString n)),
   ("Figure 4" ++ fig_letter ++ ", " ++ class_name ++ " distance plot x vals",
    (dp (connections_of (measure_connectivity ci classes pairs k k))
      (probed_distance_of (measure_connectivity ci classes pairs k k))).xvals.map ratStr),
   ("Figure 4" ++ fig_letter ++ ", " ++ class_name ++ " distance plot trace",
    (dp (connections_of (measure_connectivity ci classes pairs k k))
      (probed_distance_of (measure_connectivity ci classes pairs k k))).prop.map ratStr),
   ("Figure 4" ++ fig_letter ++ ", " ++ class_name ++ " distance plot upper CI",
    (dp (connections_of (measure_connectivity ci classes pairs k k))
      (probed_distance_of (measure_connectivity ci classes pairs k k))).upper.map ratStr),
   ("Figure 4" ++ fig_letter ++ ", " ++ class_name ++ " distance plot x vals",
    (dp (connections_of (measure_connectivity ci classes pairs k k))
      (probed_distance_of (measure_connectivity ci classes pairs k k))).lower.map ratStr)]

/-- All 72 CSV rows the script emits, in source order (lines 126-210):
near-range blocks for mouse (A) and human (C), then the per-class distance
blocks for mouse (B) and human (D).  The database is the abstract input; `dp`
and `ci` are the external distance-curve and CI estimators. -/
def script_rows (dp : DistPlotFn) (ci : CIFn) (db : List Pair) :
    List (String × List String) :=
  conn_rows ci mouse_classes (query_pairs mouse_near_filters db) "A" ++
  conn_rows ci human_classes (query_pairs human_near_filters db) "C" ++
  (mouse_classes.map (fun k =>
    dist_class_rows dp ci (mouse_classes.map Prod.fst)
      (query_pairs mouse_all_filters db) "B" k.1 k.2)).flatten ++
  (human_classes.map (fun k =>
    dist_class_rows dp ci (human_classes.map Prod.fst)
      (query_pairs human_all_filters db) "D" k.1 k.2)).flatten

/-- The lines of `manuscript_fig_4.csv`: one `write_csv` line per emitted
row. -/
def script_lines (dp : DistPlotFn) (ci : CIFn) (db : List Pair) : List String :=
  (script_rows dp ci db).map (fun r => csvLine r.1 r.2)

/-- The bytes of `manuscript_fig_4.csv`. -/
def csv_file (dp : DistPlotFn) (ci : CIFn) (db : List Pair) : String :=
  file_append (script_lines dp ci db)

/-- A trivial distance-curve estimator, used to evaluate the script model on
concrete inputs. -/
def dp0 : DistPlotFn := fun _ _ => ⟨[], [], [], []⟩

/-- A trivial CI estimator, used to evaluate the script model on concrete
inputs. -/
def ci0 : CIFn := fun _ _ => (0, 0)

/-- A CI estimator returning the whole unit interval; it satisfies the
documented estimator contract. -/
def ci1 : CIFn := fun _ _ => (0, 1)

/-- The everywhere-unconstrained cell class, used for concrete instances. -/
def class0 : CellClass := ⟨none, none, none⟩

/-- A mouse pair matching every non-distance criterion of the mouse queries
but carrying no reported distance. -/
def p_nodist : Pair :=
  ⟨Species.mouse, "2mM Ca & Mg", 45, ⟨none, none, none⟩, ⟨none, none, none⟩,
   none, false⟩

/-- A human pair with reported distance 50e-6, included by the human
near-range query. -/
def p_near0 : Pair :=
  ⟨Species.human, "", 0, ⟨none, none, none⟩, ⟨none, none, none⟩,
   some (1 / 20000), false⟩

/-- The mouse all-distance criteria with the distance filter genuinely
absent, as claim C5 words it ("no distance bound"). -/
def mouse_nobound_filters : Filters :=
  ⟨some Species.mouse, some "2mM Ca & Mg", some 40, none, none⟩

/-- The near-range filters of a species (source lines 114 and 119). -/
def near_filters : Species → Filters
  | Species.mouse => mouse_near_filters
  | Species.human => human_near_filters

/-- The all-distance filters of a species (source lines 174 and 179). -/
def all_filters : Species → Filters
  | Species.mouse => mouse_all_filters
  | Species.human => human_all_filters

/-- C4: for every non-Trace sequence input, `write_csv` appends exactly one
line: the description wrapped in one pair of double quotes prepended to the
values, all joined with commas, followed by a newline; no header row is
written. -/
theorem write_csv_seq_single_line (f : ℕ) (description units : String)
    (vals : List String) :
    write_csv (f + 1) (CsvData.seq vals) description units =
      some [csvLine description vals] ∧
    csvLine description vals = commaJoin (("\"" ++ description ++ "\"") :: vals) ∧
    file_append [csvLine description vals] = csvLine description vals ++ "\n" :=
  ⟨rfl, rfl, rfl⟩

/-- C10: the Trace branch of `write_csv` (source lines 24-26) recurses on the
same unchanged data, so a Trace argument never reaches the non-Trace branch:
no amount of fuel lets the call complete. -/
theorem write_csv_trace_diverges (f : ℕ) (t : Trace) (description units : String) :
    write_csv f (CsvData.trace t) description units = none := by
  induction f generalizing description units with
  | zero => rfl
  | succ n ih => simp [write_csv, ih]

/-- The nine bin edges 0, 20e-6, ..., 160e-6 produced by
`np.arange(0, 180e-6, 20e-6)`. -/
lemma fig4_bins_eq :
    arange 0 (9 / 50000) (1 / 50000) =
      [0, 1 / 50000, 1 / 25000, 3 / 50000, 2 / 25000, 1 / 10000, 3 / 25000,
       7 / 50000, 4 / 25000] := by
  have h9 : rceil (((9 : ℚ) / 50000 - 0) / (1 / 50000)) = 9 := by
    with_unfolding_all decide
  simp only [arange]
  rw [h9, show List.range 9 = [0, 1, 2, 3, 4, 5, 6, 7, 8] from rfl]
  simp only [List.map]
  norm_num

/-- C6: the histogram of probed distances [10e-6, 50e-6, 150e-6] over bins
arange(0, 180e-6, 20e-6) places one count in each of the bins [0,20)um,
[40,60)um and [140,160)um, and zero counts elsewhere. -/
theorem histogram_example :
    histogram [(1 / 100000 : ℚ), 1 / 20000, 3 / 20000]
        (arange 0 (9 / 50000) (1 / 50000)) =
      ([1, 0, 1, 0, 0, 0, 0, 1],
       [0, 1 / 50000, 1 / 25000, 3 / 50000, 2 / 25000, 1 / 10000, 3 / 25000,
        7 / 50000, 4 / 25000]) := by
  rw [fig4_bins_eq]
  simp only [histogram]
  norm_num [show List.range 8 = [0, 1, 2, 3, 4, 5, 6, 7] from rfl, List.filter]

/-- The value series of the near-range block in the order claim C2 states:
cell-class names, connected counts, probed counts, point estimates, lower CI,
upper CI.  This definition follows the claim text; the order theorem compares
it with the rows the embedded script emits. -/
def near_order_values (ci : CIFn) (classes : List (CellClass × String))
    (pairs : List Pair) : List (List String) :=
  [classes.map (fun k => k.2),
   classes.map (fun k =>
     toString (measure_connectivity ci (classes.map Prod.fst) pairs k.1 k.1).n_connected),
   classes.map (fun k =>
     toString (measure_connectivity ci (classes.map Prod.fst) pairs k.1 k.1).n_probed),
   classes.map (fun k =>
     ratStr (measure_connectivity ci (classes.map Prod.fst) pairs k.1 k.1).connection_probability.1),
   classes.map (fun k =>
     ratStr (measure_connectivity ci (classes.map Prod.fst) pairs k.1 k.1).connection_probability.2.1),
   classes.map (fun k =>
     ratStr (measure_connectivity ci (classes.map Prod.fst) pairs k.1 k.1).connection_probability.2.2)]

/-- The value series of one class's all-distance block in the order claim C2
states: the histogram series (its two rows, emitted edges-then-counts as the
source does), then the distance-curve x values, probabilities, upper CI, and
lower CI.  This definition follows the claim text. -/
def class_order_values (dp : DistPlotFn) (ci : CIFn) (classes : List CellClass)
    (pairs : List Pair) (k : CellClass) : List (List String) :=
  [(histogram (probed_distance_of (measure_connectivity ci classes pairs k k)).reduceOption
      fig4_bins).2.map ratStr,
   (histogram (probed_distance_of (measure_connectivity ci classes pairs k k)).reduceOption
      fig4_bins).1.map (fun n => toString n),
   (dp (connections_of (measure_connectivity ci classes pairs k k))
      (probed_distance_of (measure_connectivity ci classes pairs k k))).xvals.map ratStr,
   (dp (connections_of (measure_connectivity ci classes pairs k k))
      (probed_distance_of (measure_connectivity ci classes pairs k k))).prop.map ratStr,
   (dp (connections_of (measure_connectivity ci classes pairs k k))
      (probed_distance_of (measure_connectivity ci classes pairs k k))).upper.map ratStr,
   (dp (connections_of (measure_connectivity ci classes pairs k k))
      (probed_distance_of (measure_connectivity ci classes pairs k k))).lower.map ratStr]

/-- C2: the CSV rows are emitted in the stated fixed order — for each
species's near-range analysis the class names, connected counts, probed
counts, point estimates, lower CI and upper CI, and afterwards, for each
species and each class, the histogram series followed by the distance-curve
x values, probabilities, upper CI and lower CI. -/
theorem script_rows_order (dp : DistPlotFn) (ci : CIFn) (db : List Pair) :
    (script_rows dp ci db).map Prod.snd =
      near_order_values ci mouse_classes (query_pairs mouse_near_filters db) ++
      near_order_values ci human_classes (query_pairs human_near_filters db) ++
      (mouse_classes.map (fun k =>
        class_order_values dp ci (mouse_classes.map Prod.fst)
          (query_pairs mouse_all_filters db) k.1)).flatten ++
      (human_classes.map (fun k =>
        class_order_values dp ci (human_classes.map Prod.fst)
          (query_pairs human_all_filters db) k.1)).flatten := by
  rfl

/-- C3: for any database contents and any estimators, the script writes
exactly 72 CSV lines: 6 near-range lines per species and 6 lines per class
per species for the all-distance analysis. -/
theorem script_line_count (dp : DistPlotFn) (ci : CIFn) (db : List Pair) :
    (script_lines dp ci db).length = 72 := by
  rfl

/-- C1: evaluating the emitted rows (here on an empty database; the labels do
not depend on the data) shows the per-class label bug: row 12, labeled
"histogram values", carries the bin-edge series (9 entries), row 13, labeled
"histogram bin edges", carries the count series (8 entries) — so neither
label names the series it holds — and rows 14 and 17 carry the same
"distance plot x vals" description although row 17 holds the lower confidence
bound. -/
theorem fig4_csv_label_bug :
    (script_rows dp0 ci0 [])[12]? =
      some ("Figure 4B, L2/3 histogram values", fig4_bins.map ratStr) ∧
    (script_rows dp0 ci0 [])[13]? =
      some ("Figure 4B, L2/3 histogram bin edges",
        (histogram [] fig4_bins).1.map (fun n => toString n)) ∧
    (fig4_bins.map ratStr).length = 9 ∧
    ((histogram [] fig4_bins).1.map (fun n => toString n)).length = 8 ∧
    Option.map Prod.fst (script_rows dp0 ci0 [])[14]? =
      some "Figure 4B, L2/3 distance plot x vals" ∧
    Option.map Prod.fst (script_rows dp0 ci0 [])[17]? =
      some "Figure 4B, L2/3 distance plot x vals" := by
  refine ⟨rfl, rfl, ?_, ?_, rfl, rfl⟩
  · rw [List.length_map, fig4_bins, fig4_bins_eq]
    rfl
  · rw [List.length_map, histogram]
    simp only [List.length_map, List.length_range]
    rw [fig4_bins, fig4_bins_eq]
    rfl

/-- C8: the embedded pipeline is a pure function of the database, the class
definitions and the (externally supplied, deterministic) estimators, so two
runs over identical database contents produce byte-identical CSV output. -/
theorem csv_output_deterministic (dp : DistPlotFn) (ci : CIFn)
    (db1 db2 : List Pair) (h : db1 = db2) :
    csv_file dp ci db1 = csv_file dp ci db2 := by
  rw [h]

/-- Witness for C8 at a concrete database. -/
theorem csv_output_deterministic_witness :
    csv_file dp0 ci0 [p_nodist] = csv_file dp0 ci0 [p_nodist] :=
  csv_output_deterministic dp0 ci0 [p_nodist] [p_nodist] rfl

/-- A distance filter with no lower bound and a finite upper bound admits
exactly the reported distances strictly below it. -/
lemma distMatch_upper_iff (hi : ℚ) (d : Option ℚ) :
    distMatch (some ⟨none, some hi⟩) d = true ↔ ∃ dv, d = some dv ∧ dv < hi := by
  cases d <;> simp [distMatch]

/-- A distance filter with no lower bound and the infinite upper bound admits
exactly the pairs with some reported distance. -/
lemma distMatch_inf_iff (d : Option ℚ) :
    distMatch (some ⟨none, none⟩) d = true ↔ ∃ dv, d = some dv := by
  cases d <;> simp [distMatch]

/-- C9: membership in each near-range query — the mouse query constrains
species, the literal ACSF string "2mM Ca & Mg", minimum age 40 and reported
distance strictly below 100e-6 with no lower bound; the human query
constrains only species and the same distance bound. -/
theorem near_query_characterization (db : List Pair) (p : Pair) :
    (p ∈ query_pairs mouse_near_filters db ↔
      p ∈ db ∧ p.species = Species.mouse ∧ p.acsf = "2mM Ca & Mg" ∧
        (40 : ℚ) ≤ p.age ∧ ∃ d, p.distance = some d ∧ d < dist100um) ∧
    (p ∈ query_pairs human_near_filters db ↔
      p ∈ db ∧ p.species = Species.human ∧
        ∃ d, p.distance = some d ∧ d < dist100um) := by
  constructor <;>
    simp [query_pairs, List.mem_filter, pair_matches, mouse_near_filters,
      human_near_filters, critMatch, distMatch_upper_iff, and_assoc]

/-- C5 counterexample: the all-distance pass is not a query with no distance
bound.  A mouse pair satisfying every non-distance criterion but lacking a
reported distance is dropped by the pass's `distance=(None, inf)` filter
(source line 174), while the same criteria with the distance filter absent
keep it. -/
theorem all_distance_query_counterexample :
    query_pairs mouse_all_filters [p_nodist] = [] ∧
    query_pairs mouse_nobound_filters [p_nodist] = [p_nodist] := by
  constructor <;>
    norm_num [query_pairs, pair_matches, mouse_all_filters,
      mouse_nobound_filters, critMatch, distMatch, p_nodist, List.filter]

/-- C5 (amended): the all-distance pass includes every pair its species's
near-range pass includes, and every pair it returns carries a reported
distance. -/
theorem near_subset_all (s : Species) (db : List Pair) (p : Pair)
    (h : p ∈ query_pairs (near_filters s) db) :
    p ∈ query_pairs (all_filters s) db ∧ ∃ d, p.distance = some d := by
  cases s <;>
  · simp only [query_pairs, List.mem_filter, pair_matches, near_filters,
      all_filters, mouse_near_filters, human_near_filters, mouse_all_filters,
      human_all_filters, Bool.and_eq_true, distMatch_upper_iff,
      distMatch_inf_iff] at h ⊢
    obtain ⟨hdb, hrest, d, hd, hlt⟩ := h
    exact ⟨⟨hdb, hrest, d, hd⟩, d, hd⟩

/-- Witness for C5 (amended) at a concrete near-range pair. -/
theorem near_subset_all_witness :
    p_near0 ∈ query_pairs (all_filters Species.human) [p_near0] ∧
    ∃ d, p_near0.distance = some d :=
  near_subset_all Species.human [p_near0] p_near0 (by
    norm_num [query_pairs, pair_matches, near_filters, human_near_filters,
      critMatch, distMatch, p_near0, dist100um, List.filter])

/-- C7: every `measure_connectivity` entry satisfies
n_connected <= n_probed, and — for any CI estimator meeting its documented
contract — 0 <= lower <= point <= upper <= 1. -/
theorem connectivity_result_invariant (ci : CIFn) (h : ciValid ci)
    (classes : List CellClass) (pairs : List Pair) (k1 k2 : CellClass) :
    (measure_connectivity ci classes pairs k1 k2).n_connected ≤
      (measure_connectivity ci classes pairs k1 k2).n_probed ∧
    0 ≤ (measure_connectivity ci classes pairs k1 k2).connection_probability.2.1 ∧
    (measure_connectivity ci classes pairs k1 k2).connection_probability.2.1 ≤
      (measure_connectivity ci classes pairs k1 k2).connection_probability.1 ∧
    (measure_connectivity ci classes pairs k1 k2).connection_probability.1 ≤
      (measure_connectivity ci classes pairs k1 k2).connection_probability.2.2 ∧
    (measure_connectivity ci classes pairs k1 k2).connection_probability.2.2 ≤ 1 := by
  have hle : (connected_pairs_of classes pairs k1 k2).length ≤
      (probed_pairs_of classes pairs k1 k2).length :=
    List.length_filter_le _ _
  have hc := h (connected_pairs_of classes pairs k1 k2).length
    (probed_pairs_of classes pairs k1 k2).length hle
  exact ⟨hle, hc.1, hc.2.1, hc.2.2.1, hc.2.2.2⟩

/-- Witness for C7: the unit-interval estimator meets the contract, and the
invariant holds at a concrete instance. -/
theorem connectivity_result_invariant_witness :
    (measure_connectivity ci1 [] [] class0 class0).n_connected ≤
      (measure_connectivity ci1 [] [] class0 class0).n_probed ∧
    0 ≤ (measure_connectivity ci1 [] [] class0 class0).connection_probability.2.1 ∧
    (measure_connectivity ci1 [] [] class0 class0).connection_probability.2.1 ≤
      (measure_connectivity ci1 [] [] class0 class0).connection_probability.1 ∧
    (measure_connectivity ci1 [] [] class0 class0).connection_probability.1 ≤
      (measure_connectivity ci1 [] [] class0 class0).connection_probability.2.2 ∧
    (measure_connectivity ci1 [] [] class0 class0).connection_probability.2.2 ≤ 1 :=
  connectivity_result_invariant ci1
    (by
      intro nc np hle
      refine ⟨le_refl 0, ?_, ?_, le_refl 1⟩
      · exact div_nonneg (Nat.cast_nonneg nc) (Nat.cast_nonneg np)
      · exact div_le_one_of_le₀ (by exact_mod_cast hle) (Nat.cast_nonneg np))
    [] [] class0 class0

end Fig4
